import Mathlib

/-!
A shallow embedding of `src/river_torch/regression/regressor.py` — the
classes `Regressor` and `RollingRegressor` — together with the pieces of
the repository that file uses but that live outside `src/`: the tensor
converters (`dict2tensor`, `list2tensor`, `scalar2tensor` from
`river_torch.utils.river_compat`) and the lazy network initialisation and
window state inherited from `DeepEstimator` / `RollingDeepEstimator`
(`river_torch.base`); those are modelled from the specification.

The wrapped PyTorch network, loss function and optimizer are opaque,
caller-supplied capabilities; they are modelled by a record of functions
(`TorchEnv`).  None of the verified properties depend on floating-point
arithmetic, so tensor entries are integers.  Errors raised by Python code
are modelled by an explicit error component in each method's result, and
each method returns its post-call state so that mutations surviving a
raised error are visible.
-/

namespace RiverTorch

/-- A feature value as found in a feature map: a number, or something
non-numeric (which tensor conversion rejects). -/
inductive FVal where
  | num (v : Int)
  | other (tag : Nat)
deriving DecidableEq

/-- A feature map `x : dict`: insertion-ordered keys to values. -/
abbrev FeatureMap := List (String × FVal)

/-- The Python expression `list(x.values())`: the values of a feature map
in insertion order. -/
def FeatureMap.values (x : FeatureMap) : List FVal := x.map Prod.snd

/-- The errors a call can raise. -/
inductive TErr where
  | typeError       -- a non-numeric value reached tensor conversion
  | shapeError      -- ragged row lengths in tensor conversion
  | valueError      -- `.item()` on a tensor that is not a single element
  | attributeError  -- attribute access on an object lacking that attribute
  | uninitNet       -- sentinel: the network was used while still `None`
  | envError (code : Nat)  -- an error raised inside the wrapped network,
                           -- loss function or backpropagation
deriving DecidableEq

/-- An N-by-F tensor of numbers. -/
structure Tensor where
  rows : List (List Int)
deriving DecidableEq

/-- The call `t.item()`: the value of a single-element tensor; raises on
any other shape. -/
def Tensor.item (t : Tensor) : Except TErr Int :=
  match t.rows with
  | [[v]] => .ok v
  | _ => .error .valueError

/-- All-numeric check for one row of feature values. -/
def numRow : List FVal → Option (List Int)
  | [] => some []
  | .num v :: vs => (numRow vs).map (v :: ·)
  | .other _ :: _ => none

/-- All-numeric check for a sequence of rows. -/
def rowsNum : List (List FVal) → Option (List (List Int))
  | [] => some []
  | r :: rs =>
    match numRow r, rowsNum rs with
    | some r', some rs' => some (r' :: rs')
    | _, _ => none

/-- Whether all rows have the length of the first row. -/
def rectangular (rs : List (List Int)) : Bool :=
  match rs with
  | [] => true
  | r :: rest => rest.all (fun q => q.length == r.length)

/-- Modelled from the spec: `dict2tensor` (§4.1 `mapping_to_tensor`, from
`river_torch.utils.river_compat`, which is not under `src/`): a feature
map becomes a 1-by-F tensor of its values in key order; fails with a type
error if any value is non-numeric. -/
def dict2tensor (x : FeatureMap) : Except TErr Tensor :=
  match numRow x.values with
  | some r => .ok ⟨[r]⟩
  | none => .error .typeError

/-- Modelled from the spec: `list2tensor` (§4.1 `sequence_to_tensor`, from
`river_torch.utils.river_compat`): an ordered sequence of equal-length
numeric rows becomes an N-by-F tensor; fails on a non-numeric value or on
ragged row lengths. -/
def list2tensor (w : List (List FVal)) : Except TErr Tensor :=
  match rowsNum w with
  | none => .error .typeError
  | some rs => if rectangular rs then .ok ⟨rs⟩ else .error .shapeError

/-- Modelled from the spec: `scalar2tensor` (§4.1 `scalar_to_tensor`, from
`river_torch.utils.river_compat`): wraps a numeric target as a
one-element tensor. -/
def scalar2tensor (y : Int) : Tensor := ⟨[[y]]⟩

/-- Opaque trainable-parameter state of the wrapped network. -/
abbrev PState := Int
/-- Opaque internal state of the wrapped optimizer. -/
abbrev OState := Int
/-- An opaque gradient value produced by backpropagation. -/
abbrev Grad := Int

/-- The external capabilities of spec §6, supplied by the caller at
construction time and treated as opaque: network builder, optimizer
builder, forward pass, loss function, backpropagation and optimizer
step.  The fallible ones return `Except` because the wrapped library may
raise (shape mismatches and the like). -/
structure TorchEnv where
  /-- `build_fn(n_features)`: fresh parameters for input width `n`. -/
  build : Nat → PState
  /-- `optimizer_fn(net.parameters(), lr)`: fresh optimizer state bound to
  the parameters. -/
  initOpt : PState → OState
  /-- `net(x)` under the current train(`true`)/eval(`false`) mode flag:
  the output tensor, or a library error code. -/
  forward : PState → Bool → Tensor → Except Nat Tensor
  /-- `loss_fn(y_pred, y)`: the scalar loss tensor, or a library error
  code. -/
  lossFn : Tensor → Tensor → Except Nat Tensor
  /-- `loss.backward()`: the gradient of the loss at the parameters, for
  the given input and loss tensor, or a library error code. -/
  backward : PState → Tensor → Tensor → Except Nat Grad
  /-- `optimizer.step()`: apply the accumulated gradient to the
  parameters, updating the optimizer's internal state. -/
  step : OState → PState → Grad → PState × OState

/-- The state of a `Regressor` adapter.  `net` and `opt` are `none` until
the lazy `_init_net` runs; `grads` is the gradient buffer (zeroed by
`optimizer.zero_grad()`, accumulated into by `loss.backward()`); `mode`
is the train(`true`)/eval(`false`) flag set by `net.train()` and
`net.eval()`.  `initCount` and `builtWidth` are ghost fields recording how
many times `_init_net` ran and with which input width it last ran. -/
structure RegState where
  net : Option PState
  opt : Option OState
  grads : Grad
  mode : Bool
  initCount : Nat
  builtWidth : Option Nat
deriving DecidableEq

/-- A freshly constructed single-example adapter: nothing built yet. -/
def RegState.fresh : RegState :=
  { net := none, opt := none, grads := 0, mode := false,
    initCount := 0, builtWidth := none }

/-- Configuration of a `RollingRegressor`: the nominal window capacity and
the `append_predict` flag. -/
structure RollConfig where
  window_size : Nat
  append_predict : Bool
deriving DecidableEq

/-- The state of a `RollingRegressor`: the `Regressor` fields plus the
window buffer `_x_window`.  Modelled from the spec: `RollingDeepEstimator`
initialises `_x_window` as an empty, unbounded list — rows are appended
and never trimmed (spec §3 "window can exceed nominal size" and §9). -/
structure RollState where
  net : Option PState
  opt : Option OState
  grads : Grad
  mode : Bool
  xWindow : List (List FVal)
  initCount : Nat
  builtWidth : Option Nat
deriving DecidableEq

/-- A freshly constructed rolling adapter: nothing built, empty window. -/
def RollState.fresh : RollState :=
  { net := none, opt := none, grads := 0, mode := false,
    xWindow := [], initCount := 0, builtWidth := none }

namespace Regressor

/-- Modelled from the spec: `DeepEstimator._init_net(n_features)`
(`river_torch.base`, not under `src/`): builds the network from the
observed input width and binds a fresh optimizer to its parameters
(spec §3 invariants and §6 builder capabilities). -/
def initNet (env : TorchEnv) (st : RegState) (n : Nat) : RegState :=
  let p := env.build n
  { st with net := some p, opt := some (env.initOpt p),
            initCount := st.initCount + 1, builtWidth := some n }

/-- `Regressor._learn_one(x, y)`: `optimizer.zero_grad()`; forward pass;
loss; `loss.backward()`; `optimizer.step()`.  A raised error aborts the
call at that point; the result is the post-call state together with the
raised error, if any. -/
def learnStep (env : TorchEnv) (st : RegState) (xt yt : Tensor) :
    RegState × Option TErr :=
  match st.net, st.opt with
  | some p, some o =>
    let st := { st with grads := 0 }
    match env.forward p st.mode xt with
    | .error e => (st, some (.envError e))
    | .ok yPred =>
      match env.lossFn yPred yt with
      | .error e => (st, some (.envError e))
      | .ok l =>
        match env.backward p xt l with
        | .error e => (st, some (.envError e))
        | .ok g =>
          let st := { st with grads := st.grads + g }
          let pq := env.step o p st.grads
          ({ st with net := some pq.1, opt := some pq.2 }, none)
  | _, _ => (st, some .uninitNet)

/-- The body of `Regressor.learn_one` after the lazy-init guard. -/
def learnGo (env : TorchEnv) (st : RegState) (x : FeatureMap) (y : Int) :
    RegState × Option TErr :=
  match dict2tensor x with
  | .error e => (st, some e)
  | .ok xt =>
    let yt := scalar2tensor y
    let st := { st with mode := true }
    learnStep env st xt yt

/-- `Regressor.learn_one(x, y)`: lazy init on first use, convert the
inputs, set training mode, run one training step.  In Python the call
returns `self`; here the result is the post-call state together with the
raised error, if any (`none` = the call returned normally). -/
def learn_one (env : TorchEnv) (st : RegState) (x : FeatureMap) (y : Int) :
    RegState × Option TErr :=
  learnGo env (if st.net.isNone then initNet env st x.length else st) x y

/-- The body of `Regressor.predict_one` after the lazy-init guard. -/
def predictGo (env : TorchEnv) (st : RegState) (x : FeatureMap) :
    Except TErr Int × RegState :=
  match dict2tensor x with
  | .error e => (.error e, st)
  | .ok xt =>
    let st := { st with mode := false }
    match st.net with
    | none => (.error .uninitNet, st)
    | some p =>
      match env.forward p st.mode xt with
      | .error e => (.error (.envError e), st)
      | .ok out =>
        match out.item with
        | .error e => (.error e, st)
        | .ok v => (.ok v, st)

/-- `Regressor.predict_one(x)`: lazy init on first use, convert the
input, set evaluation mode, return `self.net(x).item()`. -/
def predict_one (env : TorchEnv) (st : RegState) (x : FeatureMap) :
    Except TErr Int × RegState :=
  predictGo env (if st.net.isNone then initNet env st x.length else st) x

end Regressor

namespace RollingRegressor

/-- Modelled from the spec: the lazy `_init_net` shared via the base
class, identical to the single-example adapter's (spec §3, §4.3). -/
def initNet (env : TorchEnv) (st : RollState) (n : Nat) : RollState :=
  let p := env.build n
  { st with net := some p, opt := some (env.initOpt p),
            initCount := st.initCount + 1, builtWidth := some n }

/-- The body of `RollingRegressor.predict_one` after the lazy-init guard.
In the `append_predict=False` branch the source rebinds `x` with
`x = copy.deepcopy(self._x_window)`, so the next line,
`x.append(list(x.values()))`, looks up `.values` on a plain list and
raises AttributeError; the stored window is untouched and the network is
never invoked on that path. -/
def predictGo (env : TorchEnv) (cfg : RollConfig) (st : RollState)
    (x : FeatureMap) : Except TErr Int × RollState :=
  if st.xWindow.length = cfg.window_size then
    if cfg.append_predict then
      let w := st.xWindow ++ [x.values]
      let st := { st with xWindow := w }
      match list2tensor w with
      | .error e => (.error e, st)
      | .ok xt =>
        let st := { st with mode := false }
        match st.net with
        | none => (.error .uninitNet, st)
        | some p =>
          match env.forward p st.mode xt with
          | .error e => (.error (.envError e), st)
          | .ok out =>
            match out.item with
            | .error e => (.error e, st)
            | .ok v => (.ok v, st)
    else
      (.error .attributeError, st)
  else
    (.ok 0, st)

/-- `RollingRegressor.predict_one(x)`: lazy init on first use; with a
window exactly at nominal capacity, predict (appending to the stored
window when `append_predict` is set); otherwise return the placeholder
0.0. -/
def predict_one (env : TorchEnv) (cfg : RollConfig) (st : RollState)
    (x : FeatureMap) : Except TErr Int × RollState :=
  predictGo env cfg (if st.net.isNone then initNet env st x.length else st) x

/-- `RollingRegressor._learn_window(x, y)`: `optimizer.zero_grad()`;
forward pass over the window batch; loss; `loss.backward()`;
`optimizer.step()`. -/
def learnWindow (env : TorchEnv) (st : RollState) (xt yt : Tensor) :
    RollState × Option TErr :=
  match st.net, st.opt with
  | some p, some o =>
    let st := { st with grads := 0 }
    match env.forward p st.mode xt with
    | .error e => (st, some (.envError e))
    | .ok yPred =>
      match env.lossFn yPred yt with
      | .error e => (st, some (.envError e))
      | .ok l =>
        match env.backward p xt l with
        | .error e => (st, some (.envError e))
        | .ok g =>
          let st := { st with grads := st.grads + g }
          let pq := env.step o p st.grads
          ({ st with net := some pq.1, opt := some pq.2 }, none)
  | _, _ => (st, some .uninitNet)

/-- The body of `RollingRegressor.learn_one` after the lazy-init guard:
append the example's values to the window; when the window length equals
`window_size`, convert the whole window and the target and run one
training step in training mode; otherwise only buffer. -/
def learnGo (env : TorchEnv) (cfg : RollConfig) (st : RollState)
    (x : FeatureMap) (y : Int) : RollState × Option TErr :=
  let st := { st with xWindow := st.xWindow ++ [x.values] }
  if st.xWindow.length = cfg.window_size then
    match list2tensor st.xWindow with
    | .error e => (st, some e)
    | .ok xt =>
      let yt := scalar2tensor y
      let st := { st with mode := true }
      learnWindow env st xt yt
  else
    (st, none)

/-- `RollingRegressor.learn_one(x, y)`: lazy init on first use, then the
buffering/training body.  In Python the call returns `self`; here the
result is the post-call state with the raised error, if any. -/
def learn_one (env : TorchEnv) (cfg : RollConfig) (st : RollState)
    (x : FeatureMap) (y : Int) : RollState × Option TErr :=
  learnGo env cfg (if st.net.isNone then initNet env st x.length else st) x y

end RollingRegressor

/-- One call in a stream of interactions with an adapter. -/
inductive AdapterCall where
  | learn (x : FeatureMap) (y : Int)
  | predict (x : FeatureMap)
deriving DecidableEq

/-- The input width (number of keys) of a call's feature map. -/
def AdapterCall.width : AdapterCall → Nat
  | .learn x _ => x.length
  | .predict x => x.length

/-- The error raised by a fallible prediction, if any. -/
def raisedErr : Except TErr Int → Option TErr
  | .ok _ => none
  | .error e => some e

namespace Regressor

/-- Dispatch one call against a `Regressor`, pairing the post-call state
with the call's raised error (`none` = the call returned normally). -/
def callOne (env : TorchEnv) (st : RegState) : AdapterCall →
    RegState × Option TErr
  | .learn x y => learn_one env st x y
  | .predict x =>
    let pr := predict_one env st x
    (pr.2, raisedErr pr.1)

/-- Run a sequence of calls against a `Regressor`, collecting each call's
raised error. -/
def runCalls (env : TorchEnv) : RegState → List AdapterCall →
    RegState × List (Option TErr)
  | st, [] => (st, [])
  | st, c :: cs =>
    let r := callOne env st c
    let rest := runCalls env r.1 cs
    (rest.1, r.2 :: rest.2)

/-- N+1 repeated `predict_one` calls with the same input, threading the
state from call to call; the value is the last call's result. -/
def predictIter (env : TorchEnv) (st : RegState) (x : FeatureMap) :
    Nat → Except TErr Int × RegState
  | 0 => predict_one env st x
  | n + 1 => predict_one env (predictIter env st x n).2 x

end Regressor

namespace RollingRegressor

/-- Dispatch one call against a `RollingRegressor`, pairing the post-call
state with the call's raised error. -/
def callOne (env : TorchEnv) (cfg : RollConfig) (st : RollState) :
    AdapterCall → RollState × Option TErr
  | .learn x y => learn_one env cfg st x y
  | .predict x =>
    let pr := predict_one env cfg st x
    (pr.2, raisedErr pr.1)

/-- Run a sequence of calls against a `RollingRegressor`, collecting each
call's raised error. -/
def runCalls (env : TorchEnv) (cfg : RollConfig) : RollState →
    List AdapterCall → RollState × List (Option TErr)
  | st, [] => (st, [])
  | st, c :: cs =>
    let r := callOne env cfg st c
    let rest := runCalls env cfg r.1 cs
    (rest.1, r.2 :: rest.2)

/-- Run a sequence of `learn_one` calls against a `RollingRegressor`. -/
def runLearns (env : TorchEnv) (cfg : RollConfig) : RollState →
    List (FeatureMap × Int) → RollState × List (Option TErr)
  | st, [] => (st, [])
  | st, c :: cs =>
    let r := learn_one env cfg st c.1 c.2
    let rest := runLearns env cfg r.1 cs
    (rest.1, r.2 :: rest.2)

end RollingRegressor

/-- A concrete instantiation of the external capabilities, used to
evaluate the embedded code on closed inputs: the network always outputs
the scalar 7, the loss is 1, backpropagation yields gradient 1, and an
optimizer step adds the gradient to the parameters and ticks the
optimizer state. -/
def envDemo : TorchEnv where
  build n := Int.ofNat n
  initOpt _ := 0
  forward _ _ _ := .ok ⟨[[7]]⟩
  lossFn _ _ := .ok ⟨[[1]]⟩
  backward _ _ _ := .ok 1
  step o p g := (p + g, o + 1)

/-- A capability record whose forward pass always raises, to exercise the
failure paths. -/
def envFwdFail : TorchEnv where
  build n := Int.ofNat n
  initOpt _ := 0
  forward _ _ _ := .error 3
  lossFn _ _ := .ok ⟨[[1]]⟩
  backward _ _ _ := .ok 1
  step o p g := (p + g, o + 1)

/-- A one-feature example map, key "a" mapped to the number `v`. -/
def xa (v : Int) : FeatureMap := [("a", FVal.num v)]

/-- A single-example adapter that has already been initialised. -/
def regReady : RegState :=
  { net := some 0, opt := some 0, grads := 0, mode := false,
    initCount := 1, builtWidth := some 1 }

/-- A rolling adapter that has been initialised, with an empty window. -/
def rollReady : RollState :=
  { net := some 0, opt := some 0, grads := 0, mode := false,
    xWindow := [], initCount := 1, builtWidth := some 1 }

/-- `rollReady` with one buffered row `[1]`. -/
def rollFull1 : RollState := { rollReady with xWindow := [[FVal.num 1]] }

/-- `rollReady` with two buffered rows `[1]` and `[2]`. -/
def rollFull2 : RollState :=
  { rollReady with xWindow := [[FVal.num 1], [FVal.num 2]] }

end RiverTorch

namespace RiverTorch

/-- Claim C1.  The claim states that with `append_predict` disabled and a
full buffer, `RollingRegressor.predict_one` predicts on a copy of the
buffer with the current example's values appended, leaving the stored
buffer unchanged.  The code instead rebinds `x` to the copied buffer, so
`x.append(list(x.values()))` raises AttributeError on a list: at the
claim's own example (window of 2 holding rows [1] and [2], input with one
key "a" mapped to 3) the call raises and never predicts.  The stored
buffer is indeed unchanged. -/
theorem C1_copy_path_raises_attribute_error :
    RollingRegressor.predict_one envDemo ⟨2, false⟩ rollFull2 (xa 3)
      = (.error .attributeError, rollFull2) := rfl

/-- Claim C7.  `Regressor.learn_one` on an initialised adapter with a
numeric feature map converts the input and the target, sets training
mode, zeroes the gradient buffer and accumulates the freshly
backpropagated gradient into it, applies exactly one optimizer step to
the pre-call parameters and optimizer state, and raises nothing (in
Python the call then returns `self`). -/
theorem C7_regressor_learn_one_trains (env : TorchEnv) (st : RegState)
    (x : FeatureMap) (y : Int) (p : PState) (o : OState)
    (xt yPred l : Tensor) (g : Grad)
    (hp : st.net = some p) (ho : st.opt = some o)
    (hx : dict2tensor x = .ok xt)
    (hf : env.forward p true xt = .ok yPred)
    (hl : env.lossFn yPred (scalar2tensor y) = .ok l)
    (hb : env.backward p xt l = .ok g) :
    Regressor.learn_one env st x y
      = ({ st with mode := true, grads := g, net := some (env.step o p g).1, opt := some (env.step o p g).2 },
         none) := by
  simp [Regressor.learn_one, Regressor.learnGo, Regressor.learnStep,
        hp, ho, hx, hf, hl, hb]

/-- Claim C7, witness: a concrete initialised adapter and example on which
the hypotheses of `C7_regressor_learn_one_trains` all hold. -/
theorem C7_regressor_learn_one_trains_witness :
    Regressor.learn_one envDemo regReady (xa 2) 5
      = ({ regReady with mode := true, grads := 1, net := some 1, opt := some 1 }, none) := by
  have h := C7_regressor_learn_one_trains envDemo regReady (xa 2) 5 0 0
    ⟨[[2]]⟩ ⟨[[7]]⟩ ⟨[[1]]⟩ 1 rfl rfl rfl rfl rfl rfl
  simpa [envDemo] using h

/-- Claim C8.  `RollingRegressor.predict_one` with `append_predict`
enabled on a full buffer permanently appends the current example's values
to the stored buffer — growing it to `window_size + 1` rows — and returns
the network's forward pass over the grown buffer in evaluation mode. -/
theorem C8_append_predict_grows_buffer (env : TorchEnv) (cfg : RollConfig)
    (st : RollState) (x : FeatureMap) (p : PState) (xt out : Tensor) (v : Int)
    (hp : st.net = some p)
    (hap : cfg.append_predict = true)
    (hfull : st.xWindow.length = cfg.window_size)
    (hconv : list2tensor (st.xWindow ++ [x.values]) = .ok xt)
    (hf : env.forward p false xt = .ok out)
    (hi : out.item = .ok v) :
    RollingRegressor.predict_one env cfg st x
      = (.ok v, { st with xWindow := st.xWindow ++ [x.values], mode := false }) ∧
    (st.xWindow ++ [x.values]).length = cfg.window_size + 1 := by
  constructor
  · simp [RollingRegressor.predict_one, RollingRegressor.predictGo,
          hp, hap, hfull, hconv, hf, hi]
  · simp [hfull]

/-- Claim C8, witness: concrete full one-row window, `append_predict`
enabled; the grown buffer has two rows and the prediction is the demo
network's output 7. -/
theorem C8_append_predict_grows_buffer_witness :
    RollingRegressor.predict_one envDemo ⟨1, true⟩ rollFull1 (xa 2)
      = (.ok 7, { rollFull1 with xWindow := [[FVal.num 1], [FVal.num 2]], mode := false }) ∧
    ([[FVal.num 1], [FVal.num 2]] : List (List FVal)).length = 1 + 1 := by
  have h := C8_append_predict_grows_buffer envDemo ⟨1, true⟩ rollFull1 (xa 2) 0
    ⟨[[1], [2]]⟩ ⟨[[7]]⟩ 7 rfl rfl rfl rfl rfl rfl
  simpa [rollFull1, rollReady, xa, FeatureMap.values] using h

/-- Claim C10.  A `RollingRegressor.learn_one` call that does not bring
the buffer to exactly `window_size` is a pure buffering step: exactly one
row is appended, no error is raised, the network parameters, optimizer
state, gradient buffer and mode flag are untouched, the target is never
read (the call's result is identical for every target), and consequently
a forward pass on any fixed input is unchanged by the call. -/
theorem C10_nonfull_learn_ignores_target (env : TorchEnv)
    (cfg : RollConfig) (st : RollState) (x : FeatureMap) (y q : Int)
    (p : PState) (hp : st.net = some p)
    (hlen : st.xWindow.length + 1 ≠ cfg.window_size) :
    RollingRegressor.learn_one env cfg st x y
      = ({ st with xWindow := st.xWindow ++ [x.values] }, none) ∧
    RollingRegressor.learn_one env cfg st x y
      = RollingRegressor.learn_one env cfg st x q ∧
    ∀ t : Tensor, ∀ m : Bool,
      ((RollingRegressor.learn_one env cfg st x y).1.net.map
          (fun w => env.forward w m t))
        = st.net.map (fun w => env.forward w m t) := by
  have key : ∀ z : Int, RollingRegressor.learn_one env cfg st x z
      = ({ st with xWindow := st.xWindow ++ [x.values] }, none) := by
    intro z
    simp [RollingRegressor.learn_one, RollingRegressor.learnGo, hp, hlen]
  refine ⟨key y, (key y).trans (key q).symm, ?_⟩
  intro t m
  rw [key y]

/-- Claim C10, witness: with nominal window size 3 and an empty buffer,
learning appends one row, touches nothing else, and gives the same result
for targets 5 and 11. -/
theorem C10_nonfull_learn_ignores_target_witness :
    RollingRegressor.learn_one envDemo ⟨3, false⟩ rollReady (xa 1) 5
      = ({ rollReady with xWindow := [[FVal.num 1]] }, none) ∧
    RollingRegressor.learn_one envDemo ⟨3, false⟩ rollReady (xa 1) 5
      = RollingRegressor.learn_one envDemo ⟨3, false⟩ rollReady (xa 1) 11 := by
  have h := C10_nonfull_learn_ignores_target envDemo ⟨3, false⟩ rollReady
    (xa 1) 5 11 0 rfl (by decide)
  exact ⟨by simpa [rollReady, xa, FeatureMap.values] using h.1, h.2.1⟩

end RiverTorch

namespace RiverTorch

/-- Claim C3, counterexample.  The claim says that from the first
`predict_one` call at a full buffer onward, every `predict_one` call
invokes the network (for both `append_predict` settings).  Under
`envDemo` every completed network invocation yields 7, yet with
window_size 1 and `append_predict` enabled, the first full-buffer call
returns 7 and the very next call returns the placeholder 0: the buffer
grew past `window_size`, the strict equality test fails, and the network
is not invoked. -/
theorem C3_counterexample_growth_restores_placeholder :
    (RollingRegressor.predict_one envDemo ⟨1, true⟩ rollFull1 (xa 2)).1 = .ok 7 ∧
    (RollingRegressor.predict_one envDemo ⟨1, true⟩
        (RollingRegressor.predict_one envDemo ⟨1, true⟩ rollFull1 (xa 2)).2 (xa 3)).1
      = .ok 0 ∧
    (Except.ok 0 : Except TErr Int) ≠ .ok 7 := by
  refine ⟨rfl, rfl, by simp⟩

/-- Claim C3, amended.  Every `predict_one` call made while the buffer
length differs from `window_size` returns the placeholder 0.0 without
invoking the network and without touching the state (the result is the
same for every capability record); when the buffer length equals
`window_size`, a call with `append_predict` enabled invokes the network
on the grown buffer (after which the buffer is longer than `window_size`,
so later calls return the placeholder again), and a call with
`append_predict` disabled raises AttributeError without invoking the
network. -/
theorem C3_predict_invocation_gate (env : TorchEnv) (cfg : RollConfig)
    (st : RollState) (x : FeatureMap) (p : PState) (hp : st.net = some p) :
    (st.xWindow.length ≠ cfg.window_size →
       RollingRegressor.predict_one env cfg st x = (.ok 0, st)) ∧
    (st.xWindow.length = cfg.window_size → cfg.append_predict = false →
       RollingRegressor.predict_one env cfg st x = (.error .attributeError, st)) ∧
    (st.xWindow.length = cfg.window_size → cfg.append_predict = true →
       ∀ xt out v, list2tensor (st.xWindow ++ [x.values]) = .ok xt →
         env.forward p false xt = .ok out → out.item = .ok v →
         RollingRegressor.predict_one env cfg st x
           = (.ok v, { st with xWindow := st.xWindow ++ [x.values], mode := false })) := by
  refine ⟨?_, ?_, ?_⟩
  · intro hlen
    simp [RollingRegressor.predict_one, RollingRegressor.predictGo, hp, hlen]
  · intro hlen hap
    simp [RollingRegressor.predict_one, RollingRegressor.predictGo, hp, hlen, hap]
  · intro hlen hap xt out v hconv hf hi
    simp [RollingRegressor.predict_one, RollingRegressor.predictGo,
          hp, hlen, hap, hconv, hf, hi]

/-- Claim C3 (amended), witness: a not-yet-full buffer yields the
placeholder and leaves the state untouched. -/
theorem C3_predict_invocation_gate_witness :
    RollingRegressor.predict_one envDemo ⟨1, true⟩ rollReady (xa 9)
      = (.ok 0, rollReady) :=
  (C3_predict_invocation_gate envDemo ⟨1, true⟩ rollReady (xa 9) 0 rfl).1
    (by decide)

/-- Claim C5.  On an initialised `Regressor`, `predict_one` leaves the
trainable parameters, the optimizer state and the gradient buffer
unchanged (only the train/eval mode flag moves to eval), and calling it
any number of times in a row with the same input yields the very same
result as a single call. -/
theorem C5_predict_one_pure (env : TorchEnv) (st : RegState)
    (x : FeatureMap) (p : PState) (hp : st.net = some p)
    (hw : st.builtWidth = some x.length) :
    ((Regressor.predict_one env st x).2.net = st.net ∧
     (Regressor.predict_one env st x).2.opt = st.opt ∧
     (Regressor.predict_one env st x).2.grads = st.grads) ∧
    (∀ n : Nat, Regressor.predictIter env st x n
        = Regressor.predict_one env st x) := by
  have hfix : Regressor.predict_one env (Regressor.predict_one env st x).2 x
      = Regressor.predict_one env st x := by
    rcases hdx : dict2tensor x with e | xt
    · simp [Regressor.predict_one, Regressor.predictGo, hp, hdx]
    · rcases hf : env.forward p false xt with e | out
      · simp [Regressor.predict_one, Regressor.predictGo, hp, hdx, hf]
      · rcases hi : out.item with e | v
        · simp [Regressor.predict_one, Regressor.predictGo, hp, hdx, hf, hi]
        · simp [Regressor.predict_one, Regressor.predictGo, hp, hdx, hf, hi]
  constructor
  · rcases hdx : dict2tensor x with e | xt
    · simp [Regressor.predict_one, Regressor.predictGo, hp, hdx]
    · rcases hf : env.forward p false xt with e | out
      · simp [Regressor.predict_one, Regressor.predictGo, hp, hdx, hf]
      · rcases hi : out.item with e | v
        · simp [Regressor.predict_one, Regressor.predictGo, hp, hdx, hf, hi]
        · simp [Regressor.predict_one, Regressor.predictGo, hp, hdx, hf, hi]
  · intro n
    induction n with
    | zero => rfl
    | succ k ih =>
      show Regressor.predict_one env (Regressor.predictIter env st x k).2 x = _
      rw [ih]
      exact hfix

/-- Claim C5, witness: three repeated predictions on a concrete
initialised adapter coincide with a single one. -/
theorem C5_predict_one_pure_witness :
    Regressor.predictIter envDemo regReady (xa 2) 2
      = Regressor.predict_one envDemo regReady (xa 2) :=
  (C5_predict_one_pure envDemo regReady (xa 2) 0 rfl rfl).2 2

/-- Claim C6, counterexample.  The claim quantifies over every failing
`learn_one` call, but on a fresh adapter whose first `learn_one` receives
a non-numeric feature value, conversion raises only after the lazy
initialisation has already run, so the call aborts with the network
constructed: the post-call state differs from the pre-call state (`net`
moved from `none` to built). -/
theorem C6_counterexample_failed_first_call_builds_net :
    (Regressor.learn_one envDemo RegState.fresh [("a", FVal.other 0)] 5).2
      = some TErr.typeError ∧
    (Regressor.learn_one envDemo RegState.fresh [("a", FVal.other 0)] 5).1.net
      ≠ RegState.fresh.net := by
  exact ⟨rfl, by decide⟩

/-- Claim C6, amended.  On either adapter whose network and optimizer are
already constructed, a `learn_one` call in which any step (conversion,
forward pass, loss computation, or backward pass) raises an error aborts
with the trainable parameters and the optimizer state unchanged; the
optimizer step is applied only after a successful backward pass, so a
failed call applies no parameter update. -/
theorem C6_failed_learn_preserves_params (env : TorchEnv)
    (cfg : RollConfig) (rst : RegState) (st : RollState)
    (p q : PState) (o u : OState)
    (hp : rst.net = some p) (ho : rst.opt = some o)
    (hq : st.net = some q) (hu : st.opt = some u) :
    (∀ x y e, (Regressor.learn_one env rst x y).2 = some e →
        (Regressor.learn_one env rst x y).1.net = rst.net ∧
        (Regressor.learn_one env rst x y).1.opt = rst.opt) ∧
    (∀ x y e, (RollingRegressor.learn_one env cfg st x y).2 = some e →
        (RollingRegressor.learn_one env cfg st x y).1.net = st.net ∧
        (RollingRegressor.learn_one env cfg st x y).1.opt = st.opt) := by
  constructor
  · intro x y e he
    rcases hdx : dict2tensor x with er | xt
    · simp [Regressor.learn_one, Regressor.learnGo, hp, hdx]
    · rcases hf : env.forward p true xt with er | yPred
      · simp [Regressor.learn_one, Regressor.learnGo, Regressor.learnStep,
              hp, ho, hdx, hf]
      · rcases hl : env.lossFn yPred (scalar2tensor y) with er | l
        · simp [Regressor.learn_one, Regressor.learnGo, Regressor.learnStep,
                hp, ho, hdx, hf, hl]
        · rcases hb : env.backward p xt l with er | g
          · simp [Regressor.learn_one, Regressor.learnGo,
                  Regressor.learnStep, hp, ho, hdx, hf, hl, hb]
          · exfalso
            simp [Regressor.learn_one, Regressor.learnGo,
                  Regressor.learnStep, hp, ho, hdx, hf, hl, hb] at he
  · intro x y e he
    by_cases hlen : st.xWindow.length + 1 = cfg.window_size
    · rcases hconv : list2tensor (st.xWindow ++ [x.values]) with er | xt
      · simp [RollingRegressor.learn_one, RollingRegressor.learnGo,
              hq, hlen, hconv]
      · rcases hf : env.forward q true xt with er | yPred
        · simp [RollingRegressor.learn_one, RollingRegressor.learnGo,
                RollingRegressor.learnWindow, hq, hu, hlen, hconv, hf]
        · rcases hl : env.lossFn yPred (scalar2tensor y) with er | l
          · simp [RollingRegressor.learn_one, RollingRegressor.learnGo,
                  RollingRegressor.learnWindow, hq, hu, hlen, hconv, hf, hl]
          · rcases hb : env.backward q xt l with er | g
            · simp [RollingRegressor.learn_one, RollingRegressor.learnGo,
                    RollingRegressor.learnWindow, hq, hu, hlen, hconv, hf,
                    hl, hb]
            · exfalso
              simp [RollingRegressor.learn_one, RollingRegressor.learnGo,
                    RollingRegressor.learnWindow, hq, hu, hlen, hconv, hf,
                    hl, hb] at he
    · exfalso
      simp [RollingRegressor.learn_one, RollingRegressor.learnGo, hq,
            hlen] at he

/-- Claim C6 (amended), witness: with a forward pass that always raises,
a concrete failing `learn_one` leaves the parameters and optimizer state
of an initialised adapter untouched. -/
theorem C6_failed_learn_preserves_params_witness :
    (Regressor.learn_one envFwdFail regReady (xa 2) 5).1.net = regReady.net ∧
    (Regressor.learn_one envFwdFail regReady (xa 2) 5).1.opt = regReady.opt :=
  (C6_failed_learn_preserves_params envFwdFail ⟨1, false⟩ regReady rollReady
      0 0 0 0 rfl rfl rfl rfl).1 (xa 2) 5 (.envError 3) rfl

end RiverTorch

namespace RiverTorch

/-- Claim C2.  `RollingRegressor.learn_one` always appends the example's
values to the window buffer; when the resulting length differs from
`window_size` the call is a pure buffering step (no error, and nothing
but the buffer changes); when the resulting length equals `window_size`
(and conversion and the training stages succeed) it performs exactly one
training step in training mode: one forward pass over the entire buffer
as a single batch, the loss against the tensor of the current call's
target only, one backpropagation and one optimizer step. -/
theorem C2_learn_one_buffers_and_trains_iff_full (env : TorchEnv)
    (cfg : RollConfig) (st : RollState) (x : FeatureMap) (y : Int)
    (p : PState) (o : OState) (hp : st.net = some p) (ho : st.opt = some o) :
    ((RollingRegressor.learn_one env cfg st x y).1.xWindow
        = st.xWindow ++ [x.values]) ∧
    (st.xWindow.length + 1 ≠ cfg.window_size →
       RollingRegressor.learn_one env cfg st x y
         = ({ st with xWindow := st.xWindow ++ [x.values] }, none)) ∧
    (st.xWindow.length + 1 = cfg.window_size →
       ∀ xt yPred l g, list2tensor (st.xWindow ++ [x.values]) = .ok xt →
         env.forward p true xt = .ok yPred →
         env.lossFn yPred (scalar2tensor y) = .ok l →
         env.backward p xt l = .ok g →
         RollingRegressor.learn_one env cfg st x y
           = ({ st with xWindow := st.xWindow ++ [x.values], mode := true, grads := g, net := some (env.step o p g).1, opt := some (env.step o p g).2 },
              none)) := by
  refine ⟨?_, ?_, ?_⟩
  · by_cases hlen : st.xWindow.length + 1 = cfg.window_size
    · rcases hconv : list2tensor (st.xWindow ++ [x.values]) with er | xt
      · simp [RollingRegressor.learn_one, RollingRegressor.learnGo,
              hp, hlen, hconv]
      · rcases hf : env.forward p true xt with er | yPred
        · simp [RollingRegressor.learn_one, RollingRegressor.learnGo,
                RollingRegressor.learnWindow, hp, ho, hlen, hconv, hf]
        · rcases hl : env.lossFn yPred (scalar2tensor y) with er | l
          · simp [RollingRegressor.learn_one, RollingRegressor.learnGo,
                  RollingRegressor.learnWindow, hp, ho, hlen, hconv, hf, hl]
          · rcases hb : env.backward p xt l with er | g
            · simp [RollingRegressor.learn_one, RollingRegressor.learnGo,
                    RollingRegressor.learnWindow, hp, ho, hlen, hconv, hf,
                    hl, hb]
            · simp [RollingRegressor.learn_one, RollingRegressor.learnGo,
                    RollingRegressor.learnWindow, hp, ho, hlen, hconv, hf,
                    hl, hb]
    · simp [RollingRegressor.learn_one, RollingRegressor.learnGo, hp, hlen]
  · intro hlen
    simp [RollingRegressor.learn_one, RollingRegressor.learnGo, hp, hlen]
  · intro hlen xt yPred l g hconv hf hl hb
    simp [RollingRegressor.learn_one, RollingRegressor.learnGo,
          RollingRegressor.learnWindow, hp, ho, hlen, hconv, hf, hl, hb]

/-- Claim C2, witness: with window size 1, a single `learn_one` fills the
window and performs the training step of the demo capabilities. -/
theorem C2_learn_one_buffers_and_trains_iff_full_witness :
    RollingRegressor.learn_one envDemo ⟨1, false⟩ rollReady (xa 3) 5
      = ({ rollReady with xWindow := [[FVal.num 3]], mode := true, grads := 1, net := some 1, opt := some 1 },
         none) := by
  have h := (C2_learn_one_buffers_and_trains_iff_full envDemo ⟨1, false⟩
      rollReady (xa 3) 5 0 0 rfl rfl).2.2 rfl ⟨[[3]]⟩ ⟨[[7]]⟩ ⟨[[1]]⟩ 1
      rfl rfl rfl rfl
  simpa [rollReady, xa, FeatureMap.values, envDemo] using h

/-- Helper: once the buffer is strictly longer than the nominal window
size, a `learn_one` call only appends and returns normally. -/
theorem learn_one_overfull_appends (env : TorchEnv) (cfg : RollConfig)
    (st : RollState) (x : FeatureMap) (y : Int) (p : PState)
    (hp : st.net = some p) (hover : cfg.window_size < st.xWindow.length) :
    RollingRegressor.learn_one env cfg st x y
      = ({ st with xWindow := st.xWindow ++ [x.values] }, none) := by
  have hne : st.xWindow.length + 1 ≠ cfg.window_size := by omega
  simp [RollingRegressor.learn_one, RollingRegressor.learnGo, hp, hne]

/-- Claim C9.  Once a `RollingRegressor`'s buffer is strictly longer than
`window_size` (as arises after a full-buffer `predict_one` with
`append_predict` enabled), no later `learn_one` ever performs a training
step: over any further sequence of `learn_one` calls the network
parameters, optimizer state, gradient buffer and mode flag are untouched,
every call returns normally (returns `self`), and the only mutation is
the appending of one row per call. -/
theorem C9_overfull_learn_never_trains_again (env : TorchEnv)
    (cfg : RollConfig) (st : RollState) (calls : List (FeatureMap × Int))
    (p : PState) (hp : st.net = some p)
    (hover : cfg.window_size < st.xWindow.length) :
    (RollingRegressor.runLearns env cfg st calls).1
        = { st with xWindow := st.xWindow ++ calls.map (fun c => c.1.values) } ∧
    ∀ e ∈ (RollingRegressor.runLearns env cfg st calls).2, e = none := by
  induction calls generalizing st with
  | nil =>
    refine ⟨?_, ?_⟩
    · simp [RollingRegressor.runLearns]
    · simp [RollingRegressor.runLearns]
  | cons c cs ih =>
    have hstep := learn_one_overfull_appends env cfg st c.1 c.2 p hp hover
    have hih := ih { st with xWindow := st.xWindow ++ [c.1.values] }
      (by simpa using hp) (by simp; omega)
    refine ⟨?_, ?_⟩
    · show (RollingRegressor.runLearns env cfg
          (RollingRegressor.learn_one env cfg st c.1 c.2).1 cs).1 = _
      rw [hstep]
      rw [hih.1]
      simp
    · show ∀ e ∈ ((RollingRegressor.learn_one env cfg st c.1 c.2).2 ::
          (RollingRegressor.runLearns env cfg
            (RollingRegressor.learn_one env cfg st c.1 c.2).1 cs).2), e = none
      rw [hstep]
      intro e he
      rcases List.mem_cons.mp he with h1 | h2
      · simpa using h1
      · exact hih.2 e h2

/-- Claim C9, witness: from a two-row buffer with nominal size 1, one more
`learn_one` only appends its row. -/
theorem C9_overfull_learn_never_trains_again_witness :
    (RollingRegressor.runLearns envDemo ⟨1, false⟩ rollFull2 [(xa 3, 5)]).1
      = { rollFull2 with xWindow := [[FVal.num 1], [FVal.num 2], [FVal.num 3]] } := by
  have h := (C9_overfull_learn_never_trains_again envDemo ⟨1, false⟩
      rollFull2 [(xa 3, 5)] 0 rfl (by decide)).1
  simpa [rollFull2, rollReady, xa, FeatureMap.values] using h

end RiverTorch

namespace RiverTorch

/-- Helper: a failing `dict2tensor` always raises the type error. -/
theorem dict2tensor_error (x : FeatureMap) (e : TErr)
    (h : dict2tensor x = .error e) : e = TErr.typeError := by
  unfold dict2tensor at h
  split at h <;> simp_all

/-- Helper: a failing `.item()` always raises the value error. -/
theorem item_error (t : Tensor) (e : TErr) (h : t.item = .error e) :
    e = TErr.valueError := by
  unfold Tensor.item at h
  split at h <;> simp_all

/-- Helper: a failing `list2tensor` raises a type or a shape error. -/
theorem list2tensor_error (w : List (List FVal)) (e : TErr)
    (h : list2tensor w = .error e) :
    e = TErr.typeError ∨ e = TErr.shapeError := by
  unfold list2tensor at h
  split at h
  · simp_all
  · split at h <;> simp_all

/-- Helper: the training body of `Regressor.learn_one` keeps the network
and optimizer present, never touches the ghost construction fields, and
never reports use of an unconstructed network. -/
theorem reg_learnGo_frame (env : TorchEnv) (st : RegState)
    (x : FeatureMap) (y : Int) (p : PState) (o : OState)
    (hp : st.net = some p) (ho : st.opt = some o) :
    (Regressor.learnGo env st x y).1.net.isSome = true ∧
    (Regressor.learnGo env st x y).1.opt.isSome = true ∧
    (Regressor.learnGo env st x y).1.initCount = st.initCount ∧
    (Regressor.learnGo env st x y).1.builtWidth = st.builtWidth ∧
    (Regressor.learnGo env st x y).2 ≠ some TErr.uninitNet := by
  rcases hdx : dict2tensor x with er | xt
  · have her := dict2tensor_error x er hdx
    subst her
    simp [Regressor.learnGo, hp, ho, hdx]
  · rcases hf : env.forward p true xt with er | yPred
    · simp [Regressor.learnGo, Regressor.learnStep, hp, ho, hdx, hf]
    · rcases hl : env.lossFn yPred (scalar2tensor y) with er | l
      · simp [Regressor.learnGo, Regressor.learnStep, hp, ho, hdx, hf, hl]
      · rcases hb : env.backward p xt l with er | g
        · simp [Regressor.learnGo, Regressor.learnStep, hp, ho, hdx, hf,
                hl, hb]
        · simp [Regressor.learnGo, Regressor.learnStep, hp, ho, hdx, hf,
                hl, hb]

/-- Helper: the prediction body of `Regressor.predict_one` preserves the
network, the optimizer and the ghost construction fields, and never
reports use of an unconstructed network. -/
theorem reg_predictGo_frame (env : TorchEnv) (st : RegState)
    (x : FeatureMap) (p : PState) (hp : st.net = some p) :
    (Regressor.predictGo env st x).2.net = st.net ∧
    (Regressor.predictGo env st x).2.opt = st.opt ∧
    (Regressor.predictGo env st x).2.initCount = st.initCount ∧
    (Regressor.predictGo env st x).2.builtWidth = st.builtWidth ∧
    raisedErr (Regressor.predictGo env st x).1 ≠ some TErr.uninitNet := by
  rcases hdx : dict2tensor x with er | xt
  · have her := dict2tensor_error x er hdx
    subst her
    simp [Regressor.predictGo, hp, hdx, raisedErr]
  · rcases hf : env.forward p false xt with er | out
    · simp [Regressor.predictGo, hp, hdx, hf, raisedErr]
    · rcases hi : out.item with er | v
      · have her := item_error out er hi
        subst her
        simp [Regressor.predictGo, hp, hdx, hf, hi, raisedErr]
      · simp [Regressor.predictGo, hp, hdx, hf, hi, raisedErr]

/-- Helper: any single call on an initialised `Regressor` keeps the
network and optimizer present, preserves the ghost construction fields,
and never reports use of an unconstructed network. -/
theorem reg_callOne_ready (env : TorchEnv) (st : RegState)
    (c : AdapterCall) (p : PState) (o : OState)
    (hp : st.net = some p) (ho : st.opt = some o) :
    (Regressor.callOne env st c).1.net.isSome = true ∧
    (Regressor.callOne env st c).1.opt.isSome = true ∧
    (Regressor.callOne env st c).1.initCount = st.initCount ∧
    (Regressor.callOne env st c).1.builtWidth = st.builtWidth ∧
    (Regressor.callOne env st c).2 ≠ some TErr.uninitNet := by
  cases c with
  | learn x y =>
    have h := reg_learnGo_frame env st x y p o hp ho
    simpa [Regressor.callOne, Regressor.learn_one, hp] using h
  | predict x =>
    have h := reg_predictGo_frame env st x p hp
    refine ⟨?_, ?_, ?_, ?_, ?_⟩
    · simpa [Regressor.callOne, Regressor.predict_one, hp] using
        congrArg Option.isSome h.1
    · simpa [Regressor.callOne, Regressor.predict_one, hp, ho] using
        congrArg Option.isSome h.2.1
    · simpa [Regressor.callOne, Regressor.predict_one, hp] using h.2.2.1
    · simpa [Regressor.callOne, Regressor.predict_one, hp] using h.2.2.2.1
    · simpa [Regressor.callOne, Regressor.predict_one, hp] using h.2.2.2.2

/-- Helper: the first call on a `Regressor` whose network is still `None`
runs the lazy construction exactly once, recording the call's input
width, and then proceeds on the constructed network. -/
theorem reg_callOne_first (env : TorchEnv) (st : RegState)
    (c : AdapterCall) (hn : st.net = none) :
    (Regressor.callOne env st c).1.net.isSome = true ∧
    (Regressor.callOne env st c).1.opt.isSome = true ∧
    (Regressor.callOne env st c).1.initCount = st.initCount + 1 ∧
    (Regressor.callOne env st c).1.builtWidth = some c.width ∧
    (Regressor.callOne env st c).2 ≠ some TErr.uninitNet := by
  cases c with
  | learn x y =>
    have h := reg_learnGo_frame env (Regressor.initNet env st x.length) x y
      (env.build x.length) (env.initOpt (env.build x.length))
      (by simp [Regressor.initNet]) (by simp [Regressor.initNet])
    refine ⟨?_, ?_, ?_, ?_, ?_⟩
    · simpa [Regressor.callOne, Regressor.learn_one, hn] using h.1
    · simpa [Regressor.callOne, Regressor.learn_one, hn] using h.2.1
    · simpa [Regressor.callOne, Regressor.learn_one, hn,
             Regressor.initNet] using h.2.2.1
    · simpa [Regressor.callOne, Regressor.learn_one, hn,
             Regressor.initNet, AdapterCall.width] using h.2.2.2.1
    · simpa [Regressor.callOne, Regressor.learn_one, hn] using h.2.2.2.2
  | predict x =>
    have h := reg_predictGo_frame env (Regressor.initNet env st x.length) x
      (env.build x.length) (by simp [Regressor.initNet])
    refine ⟨?_, ?_, ?_, ?_, ?_⟩
    · simpa [Regressor.callOne, Regressor.predict_one, hn,
             Regressor.initNet] using congrArg Option.isSome h.1
    · simpa [Regressor.callOne, Regressor.predict_one, hn,
             Regressor.initNet] using congrArg Option.isSome h.2.1
    · simpa [Regressor.callOne, Regressor.predict_one, hn,
             Regressor.initNet] using h.2.2.1
    · simpa [Regressor.callOne, Regressor.predict_one, hn,
             Regressor.initNet, AdapterCall.width] using h.2.2.2.1
    · simpa [Regressor.callOne, Regressor.predict_one, hn] using h.2.2.2.2

/-- Helper: a run of calls on an initialised `Regressor` preserves the
ghost construction fields, keeps the network present, and never reports
use of an unconstructed network. -/
theorem reg_runCalls_ready (env : TorchEnv) (st : RegState)
    (cs : List AdapterCall) (p : PState) (o : OState)
    (hp : st.net = some p) (ho : st.opt = some o) :
    (Regressor.runCalls env st cs).1.initCount = st.initCount ∧
    (Regressor.runCalls env st cs).1.builtWidth = st.builtWidth ∧
    (Regressor.runCalls env st cs).1.net.isSome = true ∧
    ∀ e ∈ (Regressor.runCalls env st cs).2, e ≠ some TErr.uninitNet := by
  induction cs generalizing st p o with
  | nil => simp [Regressor.runCalls, hp]
  | cons c cs ih =>
    have h1 := reg_callOne_ready env st c p o hp ho
    rcases Option.isSome_iff_exists.mp h1.1 with ⟨p1, hp1⟩
    rcases Option.isSome_iff_exists.mp h1.2.1 with ⟨o1, ho1⟩
    have h2 := ih (Regressor.callOne env st c).1 p1 o1 hp1 ho1
    refine ⟨?_, ?_, ?_, ?_⟩
    · show (Regressor.runCalls env (Regressor.callOne env st c).1 cs).1.initCount = _
      rw [h2.1, h1.2.2.1]
    · show (Regressor.runCalls env (Regressor.callOne env st c).1 cs).1.builtWidth = _
      rw [h2.2.1, h1.2.2.2.1]
    · exact h2.2.2.1
    · show ∀ e ∈ (Regressor.callOne env st c).2 ::
          (Regressor.runCalls env (Regressor.callOne env st c).1 cs).2,
          e ≠ some TErr.uninitNet
      intro e he
      rcases List.mem_cons.mp he with h | h
      · exact h ▸ h1.2.2.2.2
      · exact h2.2.2.2 e h

end RiverTorch

namespace RiverTorch

/-- Helper: the buffering/training body of `RollingRegressor.learn_one`
keeps the network and optimizer present, never touches the ghost
construction fields, and never reports use of an unconstructed
network. -/
theorem roll_learnGo_frame (env : TorchEnv) (cfg : RollConfig)
    (st : RollState) (x : FeatureMap) (y : Int) (p : PState) (o : OState)
    (hp : st.net = some p) (ho : st.opt = some o) :
    (RollingRegressor.learnGo env cfg st x y).1.net.isSome = true ∧
    (RollingRegressor.learnGo env cfg st x y).1.opt.isSome = true ∧
    (RollingRegressor.learnGo env cfg st x y).1.initCount = st.initCount ∧
    (RollingRegressor.learnGo env cfg st x y).1.builtWidth = st.builtWidth ∧
    (RollingRegressor.learnGo env cfg st x y).2 ≠ some TErr.uninitNet := by
  by_cases hlen : st.xWindow.length + 1 = cfg.window_size
  · rcases hconv : list2tensor (st.xWindow ++ [x.values]) with er | xt
    · rcases list2tensor_error _ er hconv with her | her <;>
        (subst her;
         simp [RollingRegressor.learnGo, hp, ho, hlen, hconv])
    · rcases hf : env.forward p true xt with er | yPred
      · simp [RollingRegressor.learnGo, RollingRegressor.learnWindow,
              hp, ho, hlen, hconv, hf]
      · rcases hl : env.lossFn yPred (scalar2tensor y) with er | l
        · simp [RollingRegressor.learnGo, RollingRegressor.learnWindow,
                hp, ho, hlen, hconv, hf, hl]
        · rcases hb : env.backward p xt l with er | g
          · simp [RollingRegressor.learnGo, RollingRegressor.learnWindow,
                  hp, ho, hlen, hconv, hf, hl, hb]
          · simp [RollingRegressor.learnGo, RollingRegressor.learnWindow,
                  hp, ho, hlen, hconv, hf, hl, hb]
  · simp [RollingRegressor.learnGo, hp, ho, hlen]

/-- Helper: the prediction body of `RollingRegressor.predict_one`
preserves the network, the optimizer and the ghost construction fields,
and never reports use of an unconstructed network. -/
theorem roll_predictGo_frame (env : TorchEnv) (cfg : RollConfig)
    (st : RollState) (x : FeatureMap) (p : PState) (hp : st.net = some p) :
    (RollingRegressor.predictGo env cfg st x).2.net = st.net ∧
    (RollingRegressor.predictGo env cfg st x).2.opt = st.opt ∧
    (RollingRegressor.predictGo env cfg st x).2.initCount = st.initCount ∧
    (RollingRegressor.predictGo env cfg st x).2.builtWidth = st.builtWidth ∧
    raisedErr (RollingRegressor.predictGo env cfg st x).1
      ≠ some TErr.uninitNet := by
  by_cases hlen : st.xWindow.length = cfg.window_size
  · rcases hap : cfg.append_predict with _ | _
    · simp [RollingRegressor.predictGo, hp, hlen, hap, raisedErr]
    · rcases hconv : list2tensor (st.xWindow ++ [x.values]) with er | xt
      · rcases list2tensor_error _ er hconv with her | her <;>
          (subst her;
           simp [RollingRegressor.predictGo, hp, hlen, hap, hconv,
                 raisedErr])
      · rcases hf : env.forward p false xt with er | out
        · simp [RollingRegressor.predictGo, hp, hlen, hap, hconv, hf,
                raisedErr]
        · rcases hi : out.item with er | v
          · have her := item_error out er hi
            subst her
            simp [RollingRegressor.predictGo, hp, hlen, hap, hconv, hf,
                  hi, raisedErr]
          · simp [RollingRegressor.predictGo, hp, hlen, hap, hconv, hf,
                  hi, raisedErr]
  · simp [RollingRegressor.predictGo, hp, hlen, raisedErr]

/-- Helper: any single call on an initialised `RollingRegressor` keeps
the network and optimizer present, preserves the ghost construction
fields, and never reports use of an unconstructed network. -/
theorem roll_callOne_ready (env : TorchEnv) (cfg : RollConfig)
    (st : RollState) (c : AdapterCall) (p : PState) (o : OState)
    (hp : st.net = some p) (ho : st.opt = some o) :
    (RollingRegressor.callOne env cfg st c).1.net.isSome = true ∧
    (RollingRegressor.callOne env cfg st c).1.opt.isSome = true ∧
    (RollingRegressor.callOne env cfg st c).1.initCount = st.initCount ∧
    (RollingRegressor.callOne env cfg st c).1.builtWidth = st.builtWidth ∧
    (RollingRegressor.callOne env cfg st c).2 ≠ some TErr.uninitNet := by
  cases c with
  | learn x y =>
    have h := roll_learnGo_frame env cfg st x y p o hp ho
    simpa [RollingRegressor.callOne, RollingRegressor.learn_one, hp]
      using h
  | predict x =>
    have h := roll_predictGo_frame env cfg st x p hp
    refine ⟨?_, ?_, ?_, ?_, ?_⟩
    · simpa [RollingRegressor.callOne, RollingRegressor.predict_one, hp]
        using congrArg Option.isSome h.1
    · simpa [RollingRegressor.callOne, RollingRegressor.predict_one, hp,
             ho] using congrArg Option.isSome h.2.1
    · simpa [RollingRegressor.callOne, RollingRegressor.predict_one, hp]
        using h.2.2.1
    · simpa [RollingRegressor.callOne, RollingRegressor.predict_one, hp]
        using h.2.2.2.1
    · simpa [RollingRegressor.callOne, RollingRegressor.predict_one, hp]
        using h.2.2.2.2

/-- Helper: the first call on a `RollingRegressor` whose network is still
`None` runs the lazy construction exactly once, recording the call's
input width, and then proceeds on the constructed network. -/
theorem roll_callOne_first (env : TorchEnv) (cfg : RollConfig)
    (st : RollState) (c : AdapterCall) (hn : st.net = none) :
    (RollingRegressor.callOne env cfg st c).1.net.isSome = true ∧
    (RollingRegressor.callOne env cfg st c).1.opt.isSome = true ∧
    (RollingRegressor.callOne env cfg st c).1.initCount = st.initCount + 1 ∧
    (RollingRegressor.callOne env cfg st c).1.builtWidth = some c.width ∧
    (RollingRegressor.callOne env cfg st c).2 ≠ some TErr.uninitNet := by
  cases c with
  | learn x y =>
    have h := roll_learnGo_frame env cfg
      (RollingRegressor.initNet env st x.length) x y
      (env.build x.length) (env.initOpt (env.build x.length))
      (by simp [RollingRegressor.initNet])
      (by simp [RollingRegressor.initNet])
    refine ⟨?_, ?_, ?_, ?_, ?_⟩
    · simpa [RollingRegressor.callOne, RollingRegressor.learn_one, hn]
        using h.1
    · simpa [RollingRegressor.callOne, RollingRegressor.learn_one, hn]
        using h.2.1
    · simpa [RollingRegressor.callOne, RollingRegressor.learn_one, hn,
             RollingRegressor.initNet] using h.2.2.1
    · simpa [RollingRegressor.callOne, RollingRegressor.learn_one, hn,
             RollingRegressor.initNet, AdapterCall.width] using h.2.2.2.1
    · simpa [RollingRegressor.callOne, RollingRegressor.learn_one, hn]
        using h.2.2.2.2
  | predict x =>
    have h := roll_predictGo_frame env cfg
      (RollingRegressor.initNet env st x.length) x
      (env.build x.length) (by simp [RollingRegressor.initNet])
    refine ⟨?_, ?_, ?_, ?_, ?_⟩
    · simpa [RollingRegressor.callOne, RollingRegressor.predict_one, hn,
             RollingRegressor.initNet] using congrArg Option.isSome h.1
    · simpa [RollingRegressor.callOne, RollingRegressor.predict_one, hn,
             RollingRegressor.initNet] using congrArg Option.isSome h.2.1
    · simpa [RollingRegressor.callOne, RollingRegressor.predict_one, hn,
             RollingRegressor.initNet] using h.2.2.1
    · simpa [RollingRegressor.callOne, RollingRegressor.predict_one, hn,
             RollingRegressor.initNet, AdapterCall.width] using h.2.2.2.1
    · simpa [RollingRegressor.callOne, RollingRegressor.predict_one, hn]
        using h.2.2.2.2

/-- Helper: a run of calls on an initialised `RollingRegressor` preserves
the ghost construction fields, keeps the network present, and never
reports use of an unconstructed network. -/
theorem roll_runCalls_ready (env : TorchEnv) (cfg : RollConfig)
    (st : RollState) (cs : List AdapterCall) (p : PState) (o : OState)
    (hp : st.net = some p) (ho : st.opt = some o) :
    (RollingRegressor.runCalls env cfg st cs).1.initCount = st.initCount ∧
    (RollingRegressor.runCalls env cfg st cs).1.builtWidth = st.builtWidth ∧
    (RollingRegressor.runCalls env cfg st cs).1.net.isSome = true ∧
    ∀ e ∈ (RollingRegressor.runCalls env cfg st cs).2,
      e ≠ some TErr.uninitNet := by
  induction cs generalizing st p o with
  | nil => simp [RollingRegressor.runCalls, hp]
  | cons c cs ih =>
    have h1 := roll_callOne_ready env cfg st c p o hp ho
    rcases Option.isSome_iff_exists.mp h1.1 with ⟨p1, hp1⟩
    rcases Option.isSome_iff_exists.mp h1.2.1 with ⟨o1, ho1⟩
    have h2 := ih (RollingRegressor.callOne env cfg st c).1 p1 o1 hp1 ho1
    refine ⟨?_, ?_, ?_, ?_⟩
    · show (RollingRegressor.runCalls env cfg
          (RollingRegressor.callOne env cfg st c).1 cs).1.initCount = _
      rw [h2.1, h1.2.2.1]
    · show (RollingRegressor.runCalls env cfg
          (RollingRegressor.callOne env cfg st c).1 cs).1.builtWidth = _
      rw [h2.2.1, h1.2.2.2.1]
    · exact h2.2.2.1
    · show ∀ e ∈ (RollingRegressor.callOne env cfg st c).2 ::
          (RollingRegressor.runCalls env cfg
            (RollingRegressor.callOne env cfg st c).1 cs).2,
          e ≠ some TErr.uninitNet
      intro e he
      rcases List.mem_cons.mp he with h | h
      · exact h ▸ h1.2.2.2.2
      · exact h2.2.2.2 e h

end RiverTorch

namespace RiverTorch

/-- Claim C4.  For either adapter, starting fresh, any nonempty sequence
of `learn_one`/`predict_one` calls constructs the network and its
optimizer exactly once — during the first call, with input width equal to
the number of keys of that first call's feature map (the ghost
construction counter ends at 1 and the recorded width is the first
call's); no later call reconstructs them (the network stays present and
the ghost fields never change again), and no forward pass or training
step ever runs on an unconstructed network (the `uninitNet` sentinel is
never raised). -/
theorem C4_network_built_exactly_once (env : TorchEnv) (cfg : RollConfig)
    (c : AdapterCall) (cs : List AdapterCall) :
    ((Regressor.runCalls env RegState.fresh (c :: cs)).1.initCount = 1 ∧
     (Regressor.runCalls env RegState.fresh (c :: cs)).1.builtWidth
        = some c.width ∧
     (Regressor.runCalls env RegState.fresh (c :: cs)).1.net.isSome = true ∧
     ∀ e ∈ (Regressor.runCalls env RegState.fresh (c :: cs)).2,
        e ≠ some TErr.uninitNet) ∧
    ((RollingRegressor.runCalls env cfg RollState.fresh (c :: cs)).1.initCount
        = 1 ∧
     (RollingRegressor.runCalls env cfg RollState.fresh (c :: cs)).1.builtWidth
        = some c.width ∧
     (RollingRegressor.runCalls env cfg RollState.fresh (c :: cs)).1.net.isSome
        = true ∧
     ∀ e ∈ (RollingRegressor.runCalls env cfg RollState.fresh (c :: cs)).2,
        e ≠ some TErr.uninitNet) := by
  constructor
  · have hfirst := reg_callOne_first env RegState.fresh c rfl
    rcases Option.isSome_iff_exists.mp hfirst.1 with ⟨p1, hp1⟩
    rcases Option.isSome_iff_exists.mp hfirst.2.1 with ⟨o1, ho1⟩
    have htr := reg_runCalls_ready env
      (Regressor.callOne env RegState.fresh c).1 cs p1 o1 hp1 ho1
    refine ⟨?_, ?_, ?_, ?_⟩
    · show (Regressor.runCalls env
          (Regressor.callOne env RegState.fresh c).1 cs).1.initCount = 1
      rw [htr.1, hfirst.2.2.1]
      rfl
    · show (Regressor.runCalls env
          (Regressor.callOne env RegState.fresh c).1 cs).1.builtWidth = _
      rw [htr.2.1, hfirst.2.2.2.1]
    · exact htr.2.2.1
    · show ∀ e ∈ (Regressor.callOne env RegState.fresh c).2 ::
          (Regressor.runCalls env
            (Regressor.callOne env RegState.fresh c).1 cs).2,
          e ≠ some TErr.uninitNet
      intro e he
      rcases List.mem_cons.mp he with h | h
      · exact h ▸ hfirst.2.2.2.2
      · exact htr.2.2.2 e h
  · have hfirst := roll_callOne_first env cfg RollState.fresh c rfl
    rcases Option.isSome_iff_exists.mp hfirst.1 with ⟨p1, hp1⟩
    rcases Option.isSome_iff_exists.mp hfirst.2.1 with ⟨o1, ho1⟩
    have htr := roll_runCalls_ready env cfg
      (RollingRegressor.callOne env cfg RollState.fresh c).1 cs p1 o1 hp1 ho1
    refine ⟨?_, ?_, ?_, ?_⟩
    · show (RollingRegressor.runCalls env cfg
          (RollingRegressor.callOne env cfg RollState.fresh c).1 cs).1.initCount = 1
      rw [htr.1, hfirst.2.2.1]
      rfl
    · show (RollingRegressor.runCalls env cfg
          (RollingRegressor.callOne env cfg RollState.fresh c).1 cs).1.builtWidth = _
      rw [htr.2.1, hfirst.2.2.2.1]
    · exact htr.2.2.1
    · show ∀ e ∈ (RollingRegressor.callOne env cfg RollState.fresh c).2 ::
          (RollingRegressor.runCalls env cfg
            (RollingRegressor.callOne env cfg RollState.fresh c).1 cs).2,
          e ≠ some TErr.uninitNet
      intro e he
      rcases List.mem_cons.mp he with h | h
      · exact h ▸ hfirst.2.2.2.2
      · exact htr.2.2.2 e h

/-- Claim C4, witness: a concrete two-call trace on each fresh adapter
ends with the construction counter at 1 and the width of the first call
recorded. -/
theorem C4_network_built_exactly_once_witness :
    (Regressor.runCalls envDemo RegState.fresh
        [AdapterCall.learn (xa 1) 5, AdapterCall.predict (xa 2)]).1.initCount = 1 ∧
    (RollingRegressor.runCalls envDemo ⟨2, false⟩ RollState.fresh
        [AdapterCall.learn (xa 1) 5, AdapterCall.predict (xa 2)]).1.initCount = 1 := by
  have h := C4_network_built_exactly_once envDemo ⟨2, false⟩
    (AdapterCall.learn (xa 1) 5) [AdapterCall.predict (xa 2)]
  exact ⟨h.1.1, h.2.1⟩

end RiverTorch
